import Mathlib

/-!
Shallow embedding of the particle-morphing animation engine and the wish
service of the TO_SC repository, together with theorems settling the
specification claims about them.

The per-frame scalar state (animation progress, zipper parameter, layer
layout) is embedded over `ℚ`; quantities whose source formulas involve
`Math.PI`, `Math.sin`, `Math.acos` or `Math.cbrt` are embedded over `ℝ`.
-/

open Real

/-- Three.js `MathUtils.lerp(x, y, t) = (1 - t) * x + t * y`.  Note the
interpolation factor is NOT clamped by the library. -/
def lerp (x y t : ℚ) : ℚ := (1 - t) * x + t * y

/-- One frame tick of a group's animation progress (part_000 lines 108-112,
240-244, 342-346): when `|progress - target| > 0.001` the progress is
replaced by `lerp(progress, target, speedConstant * delta)`, otherwise it is
left unchanged (settled). -/
def progressTick (speed dt target p : ℚ) : ℚ :=
  if 1/1000 < |p - target| then lerp p target (speed * dt) else p

/-- The update rule as the specification words it: exponential smoothing with
the factor clamped to `[0, 1]`.  Stated only for comparison with
`progressTick`, which embeds the source. -/
def progressTickClamped (speed dt target p : ℚ) : ℚ :=
  if 1/1000 < |p - target| then p + (target - p) * max 0 (min 1 (speed * dt)) else p

/-- Ornament-group per-particle interpolation parameter (part_000 line 264):
`Math.max(0, Math.min(1, progress * 1.5 - (i / count) * 0.5))`. -/
def effectiveProgress (p : ℚ) (i count : ℕ) : ℚ :=
  max 0 (min 1 (p * (3/2) - ((i : ℚ) / (count : ℚ)) * (1/2)))

/-- Ornament geometry subtypes (part_000 line 182). -/
inductive OrnamentType
  | sphere
  | diamond
deriving DecidableEq

/-- Formed-layout uniform scale of an ornament (part_000 line 209):
`type === 'diamond' ? 0.15 : 0.2`. -/
def ornamentTreeScale : OrnamentType → ℚ
  | OrnamentType.diamond => 3/20
  | OrnamentType.sphere => 1/5

/-- Scattered-layout uniform scale of an ornament (part_000 line 217):
`dummy.scale.setScalar(0)` — the code passes `0` for every index and both
subtypes, although the inline comment on the same line concludes
"Let's do full." -/
def ornamentScatterScale (ty : OrnamentType) (i : ℕ) : ℚ := 0

/-- Number of conical layers of the needle layout (part_000 line 60). -/
def needleLayers : ℕ := 6

/-- Base radius of the needle cone (part_000 line 62): `2.8`. -/
def needleBaseRadius : ℚ := 14/5

/-- Height band of a needle particle (part_000 line 69):
`Math.floor(Math.random() * layers)`, a function of that particle's own
uniform draw `u` alone (independent across particles, not round-robin). -/
def needleLayerIndex (u : ℚ) : ℤ := ⌊u * 6⌋

/-- Band fraction (part_000 line 70): `layerIndex / layers`. -/
def needleLayerT (li : ℤ) : ℚ := (li : ℚ) / 6

/-- Layer radius (part_000 line 74): `baseRadius * (1 - t * 0.9)`. -/
def needleLayerR (li : ℤ) : ℚ := needleBaseRadius * (1 - needleLayerT li * (9/10))

/-- The fixed localized fallback message of the wish service
(part_002 lines 18, 27, 31). -/
def fallbackWish : String := "孙畅大王，圣诞节快乐！Merry Christmas"

/-- The wish service `generateHolidayWish` (part_002 lines 14-33).  The service outcome is an
explicit argument: `Except.error e` models the `catch` path (network or
service failure), `Except.ok none` a response with no text, and
`Except.ok (some text)` a response with text (the source substitutes the
fallback for falsy text via `text || fallback`).  The embedding is a total
function into `String`: every path of the source returns a string, none
re-throws. -/
def generateHolidayWish (theme apiKey : String) (service : Except String (Option String)) : String :=
  if apiKey = "" then fallbackWish
  else
    match service with
    | Except.error _ => fallbackWish
    | Except.ok none => fallbackWish
    | Except.ok (some text) => if text = "" then fallbackWish else text

/-- Needle-group swirl angle (part_000 lines 137-142): the rotation
`(1 - progress) * Math.PI * 2` is applied only while
`progress > 0.01 && progress < 0.99`; outside that window no rotation is
applied, i.e. the applied angle is `0`. -/
noncomputable def swirlAngle (p : ℝ) : ℝ :=
  if 0.01 < p ∧ p < 0.99 then (1 - p) * (Real.pi * 2) else 0

/-- Rotation of a point about the vertical (+Y) axis by angle `a`
(`tempPos.applyAxisAngle(new THREE.Vector3(0, 1, 0), angle)`,
part_000 lines 140-141). -/
noncomputable def rotateY (a : ℝ) (v : ℝ × ℝ × ℝ) : ℝ × ℝ × ℝ :=
  (v.1 * Real.cos a + v.2.2 * Real.sin a, v.2.1, -v.1 * Real.sin a + v.2.2 * Real.cos a)

/-- The needle-group swirl applied to the interpolated position (the
interpolated quaternion and scale are untouched by this step). -/
noncomputable def needleSwirl (p : ℝ) (v : ℝ × ℝ × ℝ) : ℝ × ℝ × ℝ :=
  rotateY (swirlAngle p) v

/-- The sampler `randomInSphere` (part_000 lines 31-43) with the three `Math.random()`
draws made explicit arguments `u v w`:
`theta = 2πu`, `phi = acos(2v - 1)`, `r = cbrt(w) * radius`, returning
`(r sin φ cos θ, r sin φ sin θ, r cos φ)`. -/
noncomputable def randomInSphere (radius u v w : ℝ) : ℝ × ℝ × ℝ :=
  (w ^ ((1 : ℝ)/3) * radius * Real.sin (Real.arccos (2 * v - 1)) * Real.cos (2 * Real.pi * u),
   w ^ ((1 : ℝ)/3) * radius * Real.sin (Real.arccos (2 * v - 1)) * Real.sin (2 * Real.pi * u),
   w ^ ((1 : ℝ)/3) * radius * Real.cos (Real.arccos (2 * v - 1)))

/-- Euclidean distance of a point from the origin. -/
noncomputable def norm3 (v : ℝ × ℝ × ℝ) : ℝ :=
  Real.sqrt (v.1 ^ 2 + v.2.1 ^ 2 + v.2.2 ^ 2)

/-- One idle tick of light `i` when the group is settled formed
(part_000 lines 384-399).  The state `st` is the light's previously rendered
`(y position, scale)`; `treeScale` is the fixed formed-layout scale read back
from `treeTransforms[i]`.  The source reads the previous matrix, then does
`p.y += sin(elapsedTime + i) * 0.002` and
`scale = treeScale * (0.8 + (sin(elapsedTime * 3 + i * 0.5) * 0.5 + 0.5) * 0.5)`. -/
noncomputable def lightIdleStep (t : ℝ) (i : ℕ) (treeScale : ℝ) (st : ℝ × ℝ) : ℝ × ℝ :=
  (st.1 + Real.sin (t + (i : ℝ)) * 0.002,
   treeScale * (0.8 + (Real.sin (t * 3 + (i : ℝ) * 0.5) * 0.5 + 0.5) * 0.5))

/-- Light-group blink multiplier during an active morph (part_000 lines
367-368): `blink = sin(elapsedTime * 5 + i) * 0.5 + 0.5`, then the
interpolated scale is multiplied by `0.8 + blink * 0.4`. -/
noncomputable def lightTransitionBlinkFactor (t : ℝ) (i : ℕ) : ℝ :=
  0.8 + (Real.sin (t * 5 + (i : ℝ)) * 0.5 + 0.5) * 0.4

/-- Light-group blink multiplier of the settled idle branch (part_000 lines
392, 396): `blink = sin(elapsedTime * 3 + i * 0.5) * 0.5 + 0.5`, factor
`0.8 + blink * 0.5`. -/
noncomputable def lightIdleBlinkFactor (t : ℝ) (i : ℕ) : ℝ :=
  0.8 + (Real.sin (t * 3 + (i : ℝ) * 0.5) * 0.5 + 0.5) * 0.5

/-- The blink multiplier as the specification words it:
`0.8 + 0.5 * (0.5 + 0.5 * sin(elapsedTime * frequency + index * phaseOffset))`.
Stated only for comparison with the factors embedded from the source. -/
noncomputable def specBlinkFactor (freq phase t : ℝ) (i : ℕ) : ℝ :=
  0.8 + 0.5 * (0.5 + 0.5 * Real.sin (t * freq + (i : ℝ) * phase))

/-- Final rendered light scale during an active morph (part_000 lines
363-368): scalar interpolation `lerp(sSca, tSca, progress)` followed by the
blink multiplication. -/
noncomputable def lightTransitionScale (t : ℝ) (i : ℕ) (sSca tSca p : ℝ) : ℝ :=
  ((1 - p) * sSca + p * tSca) * lightTransitionBlinkFactor t i

/-- C1 counterexample: the per-tick update does not clamp the smoothing
factor.  At `progress = 0`, `target = 1`, `speedConstant = 2.5`, `dt = 1`,
the source update yields `2.5`, exceeding `1`, while the claimed clamped rule
yields `1` — the two rules disagree and progress escapes `[0, 1]`. -/
theorem progressTick_unclamped_counterexample :
    progressTick (5/2) 1 1 0 = 5/2 ∧
    progressTickClamped (5/2) 1 1 0 = 1 ∧
    1 < progressTick (5/2) 1 1 0 := by
  refine ⟨?_, ?_, ?_⟩ <;>
    simp only [progressTick, progressTickClamped, lerp, zero_sub, abs_neg, abs_one] <;>
    norm_num

/-- C1 (amended): the per-tick update is the UNCLAMPED smoothing
`progress + (target - progress) * (speedConstant * dt)`, guarded by
`|progress - target| > 0.001`.  Whenever the factor `speedConstant * dt`
lies in `(0, 1]`, `target = 1` and `progress ∈ [0, 1)`: a tick never
decreases progress, keeps it inside `[0, 1]`, strictly increases it while it
is more than `0.001` below `1`, and leaves it unchanged once within
`0.001` of `1`. -/
theorem progressTick_monotone_in_unit (s d p : ℚ)
    (hf0 : 0 < s * d) (hf1 : s * d ≤ 1) (hp0 : 0 ≤ p) (hp1 : p < 1) :
    p ≤ progressTick s d 1 p ∧
    0 ≤ progressTick s d 1 p ∧
    progressTick s d 1 p ≤ 1 ∧
    (1/1000 < 1 - p → p < progressTick s d 1 p) ∧
    (1 - p ≤ 1/1000 → progressTick s d 1 p = p) := by
  have habs : |p - 1| = 1 - p := by
    rw [abs_sub_comm]
    exact abs_of_nonneg (by linarith)
  unfold progressTick lerp
  rw [habs]
  by_cases hc : 1/1000 < 1 - p
  · rw [if_pos hc]
    refine ⟨by nlinarith, by nlinarith, by nlinarith, fun _ => by nlinarith,
      fun hle => absurd hc (not_lt.mpr hle)⟩
  · rw [if_neg hc]
    exact ⟨le_rfl, hp0, hp1.le, fun hlt => absurd hlt hc, fun _ => rfl⟩

/-- C1 witness: the amended theorem applied at `speedConstant = 2`,
`dt = 1/4`, `progress = 1/2`. -/
theorem progressTick_monotone_in_unit_witness :
    (0 : ℚ) < 2 * (1/4) ∧ (2 : ℚ) * (1/4) ≤ 1 ∧ (0 : ℚ) ≤ 1/2 ∧ (1/2 : ℚ) < 1 ∧
    ((1/2 : ℚ) ≤ progressTick 2 (1/4) 1 (1/2) ∧
     (0 : ℚ) ≤ progressTick 2 (1/4) 1 (1/2) ∧
     progressTick 2 (1/4) 1 (1/2) ≤ 1 ∧
     ((1/1000 : ℚ) < 1 - 1/2 → (1/2 : ℚ) < progressTick 2 (1/4) 1 (1/2)) ∧
     ((1 : ℚ) - 1/2 ≤ 1/1000 → progressTick 2 (1/4) 1 (1/2) = 1/2)) :=
  ⟨by norm_num, by norm_num, by norm_num, by norm_num,
   progressTick_monotone_in_unit 2 (1/4) (1/2) (by norm_num) (by norm_num) (by norm_num)
     (by norm_num)⟩

/-- C2: the ornament interpolation parameter is the clamp of
`progress * 1.5 - (i / count) * 0.5` to `[0, 1]`, it always lies in `[0, 1]`,
and at a fixed progress it is antitone in the particle index: for `i < j`,
`effectiveT(j) ≤ effectiveT(i)` (the zipper stagger). -/
theorem effectiveProgress_zipper (p : ℚ) (i j count : ℕ)
    (hij : i < j) (hj : j < count) :
    effectiveProgress p i count =
      max 0 (min 1 (p * (3/2) - ((i : ℚ) / (count : ℚ)) * (1/2))) ∧
    0 ≤ effectiveProgress p i count ∧
    effectiveProgress p i count ≤ 1 ∧
    effectiveProgress p j count ≤ effectiveProgress p i count := by
  have hcount : (0 : ℚ) < (count : ℚ) := by
    have : 0 < count := lt_of_le_of_lt (Nat.zero_le j) hj
    exact_mod_cast this
  have hdiv : (i : ℚ) / (count : ℚ) ≤ (j : ℚ) / (count : ℚ) := by
    apply div_le_div_of_nonneg_right ?_ hcount.le
    exact_mod_cast hij.le
  refine ⟨rfl, le_max_left 0 _, ?_, ?_⟩
  · exact max_le (by norm_num) (min_le_left 1 _)
  · unfold effectiveProgress
    exact max_le_max le_rfl (min_le_min le_rfl (by linarith))

/-- C2 witness: the zipper theorem applied at `progress = 1/2`, indices
`1 < 2`, `count = 4`. -/
theorem effectiveProgress_zipper_witness :
    1 < 2 ∧ 2 < 4 ∧
    (effectiveProgress (1/2) 1 4 =
       max 0 (min 1 ((1/2 : ℚ) * (3/2) - ((1 : ℚ) / (4 : ℚ)) * (1/2))) ∧
     0 ≤ effectiveProgress (1/2) 1 4 ∧
     effectiveProgress (1/2) 1 4 ≤ 1 ∧
     effectiveProgress (1/2) 2 4 ≤ effectiveProgress (1/2) 1 4) :=
  ⟨by norm_num, by norm_num,
   by
    have h := effectiveProgress_zipper (1/2) 1 2 4 (by norm_num) (by norm_num)
    exact_mod_cast h⟩

/-- C6: evaluation of the ornament scatter-layout scale at the failing
inputs.  The source sets the scattered-state scale of EVERY ornament to `0`
(`dummy.scale.setScalar(0)`, part_000 line 217), for both subtypes,
contradicting both the claim and the source's own inline comment
("Let's do full."); the formed-layout scales are the non-zero constants. -/
theorem ornamentScatterScale_eval :
    ornamentScatterScale OrnamentType.sphere 0 = 0 ∧
    ornamentScatterScale OrnamentType.diamond 0 = 0 ∧
    ornamentTreeScale OrnamentType.sphere ≠ 0 ∧
    ornamentTreeScale OrnamentType.diamond ≠ 0 := by
  refine ⟨rfl, rfl, by norm_num [ornamentTreeScale], by norm_num [ornamentTreeScale]⟩

/-- C7 counterexample: the topmost height band is `layerIndex = 5` (of
`layers = 6`), whose radius is `baseRadius * (1 - 0.9 * 5/6) = 0.25 *
baseRadius` — 25% of the base radius, not the claimed 10%.  The 10% value is
the `t = 1` limit of the formula, which no band attains. -/
theorem needleLayerR_top_counterexample :
    needleLayerR 5 = (1/4) * needleBaseRadius ∧
    needleLayerR 5 ≠ (1/10) * needleBaseRadius := by
  constructor <;> norm_num [needleLayerR, needleLayerT, needleBaseRadius]

/-- C7 (amended): each particle's band index `⌊u * 6⌋` is a function of that
particle's own uniform draw `u` alone and lands in `{0, …, 5}` for
`u ∈ [0, 1)`; the layer radius is the linear function
`baseRadius * (1 - 0.9 * li/6)` of the band index, shrinking by the constant
amount `baseRadius * 0.9 / 6` per band, from `baseRadius` at the bottom band
to `0.25 * baseRadius` (not 10%) at the topmost band. -/
theorem needleLayer_spec :
    needleLayerR 0 = needleBaseRadius ∧
    needleLayerR 5 = (1/4) * needleBaseRadius ∧
    (∀ u : ℚ, 0 ≤ u → u < 1 → 0 ≤ needleLayerIndex u ∧ needleLayerIndex u < 6) ∧
    (∀ li : ℤ, needleLayerR li = needleBaseRadius * (1 - (9/10) * ((li : ℚ) / 6))) ∧
    (∀ li : ℤ, needleLayerR li - needleLayerR (li + 1) = needleBaseRadius * (9/10) / 6) := by
  refine ⟨by norm_num [needleLayerR, needleLayerT, needleBaseRadius],
    by norm_num [needleLayerR, needleLayerT, needleBaseRadius], ?_, ?_, ?_⟩
  · intro u hu0 hu1
    constructor
    · exact Int.floor_nonneg.mpr (by positivity)
    · apply Int.floor_lt.mpr
      push_cast
      linarith
  · intro li
    unfold needleLayerR needleLayerT
    ring
  · intro li
    unfold needleLayerR needleLayerT
    push_cast
    ring

/-- C7 witness: the band-validity part of the amended theorem applied at
`u = 1/2`. -/
theorem needleLayer_spec_witness :
    (0 : ℚ) ≤ 1/2 ∧ (1/2 : ℚ) < 1 ∧
    (0 ≤ needleLayerIndex (1/2) ∧ needleLayerIndex (1/2) < 6) :=
  ⟨by norm_num, by norm_num, needleLayer_spec.2.2.1 (1/2) (by norm_num) (by norm_num)⟩

/-- C3 counterexample: `progress = 1/200 = 0.005` is strictly between 0 and
1, yet the applied swirl angle is `0` — not strictly between 0 and 2π —
because the source only applies the rotation while
`0.01 < progress < 0.99`. -/
theorem swirlAngle_intermediate_counterexample :
    (0 : ℝ) < 1/200 ∧ (1/200 : ℝ) < 1 ∧
    swirlAngle (1/200) = 0 ∧
    ¬(0 < swirlAngle (1/200) ∧ swirlAngle (1/200) < 2 * Real.pi) := by
  have hz : swirlAngle (1/200) = 0 := by
    unfold swirlAngle
    rw [if_neg]
    intro h
    have := h.1
    norm_num at this
  refine ⟨by norm_num, by norm_num, hz, ?_⟩
  intro h
  rw [hz] at h
  exact lt_irrefl 0 h.1

/-- C3 (amended): the swirl rotates the interpolated position about the
vertical axis (leaving the y-coordinate, and the interpolated rotation,
untouched) by angle `(1 - progress) * 2π`, applied exactly while
`0.01 < progress < 0.99`; the applied angle is `0` at `progress ∈ {0, 1}`
(indeed whenever `progress ≤ 0.01` or `progress ≥ 0.99`, where the swirl is
the identity on positions), and it is strictly between 0 and 2π for every
`progress` strictly inside the `(0.01, 0.99)` window. -/
theorem swirlAngle_spec :
    swirlAngle 0 = 0 ∧
    swirlAngle 1 = 0 ∧
    (∀ v : ℝ × ℝ × ℝ, needleSwirl 0 v = v ∧ needleSwirl 1 v = v) ∧
    (∀ p : ℝ, ∀ v : ℝ × ℝ × ℝ, (needleSwirl p v).2.1 = v.2.1) ∧
    (∀ p : ℝ, 0.01 < p → p < 0.99 →
      swirlAngle p = (1 - p) * (Real.pi * 2) ∧
      0 < swirlAngle p ∧ swirlAngle p < 2 * Real.pi) := by
  have h0 : swirlAngle 0 = 0 := by
    unfold swirlAngle
    rw [if_neg]
    intro h
    have := h.1
    norm_num at this
  have h1 : swirlAngle 1 = 0 := by
    unfold swirlAngle
    rw [if_neg]
    intro h
    have := h.2
    norm_num at this
  have hid : ∀ v : ℝ × ℝ × ℝ, rotateY 0 v = v := by
    intro v
    unfold rotateY
    simp
  refine ⟨h0, h1, ?_, ?_, ?_⟩
  · intro v
    constructor
    · rw [needleSwirl, h0]
      exact hid v
    · rw [needleSwirl, h1]
      exact hid v
  · intro p v
    rfl
  · intro p hlo hhi
    have hwin : swirlAngle p = (1 - p) * (Real.pi * 2) := by
      unfold swirlAngle
      rw [if_pos ⟨hlo, hhi⟩]
    have hp1 : (0 : ℝ) < 1 - p := by norm_num at hhi ⊢; linarith
    have hp2 : 1 - p < 1 := by norm_num at hlo ⊢; linarith
    refine ⟨hwin, ?_, ?_⟩
    · rw [hwin]
      have := Real.pi_pos
      positivity
    · rw [hwin]
      have hpi := Real.pi_pos
      nlinarith

/-- C3 witness: the window part of the amended theorem applied at
`progress = 1/2`. -/
theorem swirlAngle_spec_witness :
    (0.01 : ℝ) < 1/2 ∧ (1/2 : ℝ) < 0.99 ∧
    (swirlAngle (1/2) = (1 - 1/2) * (Real.pi * 2) ∧
     0 < swirlAngle (1/2) ∧ swirlAngle (1/2) < 2 * Real.pi) :=
  ⟨by norm_num, by norm_num, swirlAngle_spec.2.2.2.2 (1/2) (by norm_num) (by norm_num)⟩

/-- C4: for every radius `R ≥ 0` and draws `u, v, w ∈ [0, 1]`, the sampled
point lies at distance `cbrt(w) * R` from the origin, the cube of that
distance is `w * R³` (volume-uniform inverse CDF), the distance never
exceeds `R`, and the vertical component is `cbrt(w) * R * (2v - 1)` (the
`acos`-mapped polar angle). -/
theorem randomInSphere_spec (R u v w : ℝ)
    (hR : 0 ≤ R) (hu0 : 0 ≤ u) (hu1 : u ≤ 1)
    (hv0 : 0 ≤ v) (hv1 : v ≤ 1) (hw0 : 0 ≤ w) (hw1 : w ≤ 1) :
    norm3 (randomInSphere R u v w) = w ^ ((1 : ℝ)/3) * R ∧
    (norm3 (randomInSphere R u v w)) ^ 3 = w * R ^ 3 ∧
    norm3 (randomInSphere R u v w) ≤ R ∧
    (randomInSphere R u v w).2.2 = w ^ ((1 : ℝ)/3) * R * (2 * v - 1) := by
  set r : ℝ := w ^ ((1 : ℝ)/3) * R with hr_def
  have hcr : 0 ≤ w ^ ((1 : ℝ)/3) := Real.rpow_nonneg hw0 _
  have hr : 0 ≤ r := mul_nonneg hcr hR
  have hcube : (w ^ ((1 : ℝ)/3)) ^ 3 = w := by
    rw [← Real.rpow_natCast (w ^ ((1 : ℝ)/3)) 3, ← Real.rpow_mul hw0]
    norm_num
  have hnorm : norm3 (randomInSphere R u v w) = r := by
    unfold norm3 randomInSphere
    have hsum :
        (w ^ ((1 : ℝ)/3) * R * Real.sin (Real.arccos (2 * v - 1)) *
            Real.cos (2 * Real.pi * u)) ^ 2 +
          (w ^ ((1 : ℝ)/3) * R * Real.sin (Real.arccos (2 * v - 1)) *
            Real.sin (2 * Real.pi * u)) ^ 2 +
          (w ^ ((1 : ℝ)/3) * R * Real.cos (Real.arccos (2 * v - 1))) ^ 2 = r ^ 2 := by
      have h1 := Real.sin_sq_add_cos_sq (2 * Real.pi * u)
      have h2 := Real.sin_sq_add_cos_sq (Real.arccos (2 * v - 1))
      calc (w ^ ((1 : ℝ)/3) * R * Real.sin (Real.arccos (2 * v - 1)) *
              Real.cos (2 * Real.pi * u)) ^ 2 +
            (w ^ ((1 : ℝ)/3) * R * Real.sin (Real.arccos (2 * v - 1)) *
              Real.sin (2 * Real.pi * u)) ^ 2 +
            (w ^ ((1 : ℝ)/3) * R * Real.cos (Real.arccos (2 * v - 1))) ^ 2
          = (w ^ ((1 : ℝ)/3) * R) ^ 2 *
              (Real.sin (Real.arccos (2 * v - 1)) ^ 2 *
                 (Real.sin (2 * Real.pi * u) ^ 2 + Real.cos (2 * Real.pi * u) ^ 2) +
               Real.cos (Real.arccos (2 * v - 1)) ^ 2) := by ring
        _ = (w ^ ((1 : ℝ)/3) * R) ^ 2 *
              (Real.sin (Real.arccos (2 * v - 1)) ^ 2 +
               Real.cos (Real.arccos (2 * v - 1)) ^ 2) := by rw [h1]; ring
        _ = r ^ 2 := by rw [h2, hr_def]; ring
    rw [hsum]
    exact Real.sqrt_sq hr
  refine ⟨hnorm, ?_, ?_, ?_⟩
  · rw [hnorm, hr_def, mul_pow, hcube]
  · rw [hnorm, hr_def]
    have hle1 : w ^ ((1 : ℝ)/3) ≤ 1 := Real.rpow_le_one hw0 hw1 (by norm_num)
    nlinarith
  · show w ^ ((1 : ℝ)/3) * R * Real.cos (Real.arccos (2 * v - 1)) = _
    rw [Real.cos_arccos (by linarith) (by linarith)]

/-- C4 witness: the theorem applied at `R = 1`, `u = 0`, `v = 1`, `w = 1`. -/
theorem randomInSphere_spec_witness :
    (0 : ℝ) ≤ 1 ∧ (0 : ℝ) ≤ 0 ∧ (0 : ℝ) ≤ 1 ∧
    (norm3 (randomInSphere 1 0 1 1) = 1 ^ ((1 : ℝ)/3) * 1 ∧
     (norm3 (randomInSphere 1 0 1 1)) ^ 3 = 1 * 1 ^ 3 ∧
     norm3 (randomInSphere 1 0 1 1) ≤ 1 ∧
     (randomInSphere 1 0 1 1).2.2 = 1 ^ ((1 : ℝ)/3) * 1 * (2 * 1 - 1)) :=
  ⟨by norm_num, by norm_num, by norm_num,
   randomInSphere_spec 1 0 1 1 (by norm_num) (by norm_num) (by norm_num) (by norm_num)
     (by norm_num) (by norm_num) (by norm_num)⟩

/-- C5 counterexample: the idle vertical float is NOT a pure function of
elapsed time and index — it accumulates.  With elapsed time frozen at `1`,
index `0`, formed scale `1`, starting from rendered state `(0, 1)`: one idle
tick and two idle ticks yield different y positions (`sin 1 * 0.002` versus
`2 * sin 1 * 0.002`), because the source does
`p.y += sin(elapsedTime + i) * 0.002` on the position read back from the
instance buffer. -/
theorem lightIdle_position_accumulates :
    (lightIdleStep 1 0 1 (lightIdleStep 1 0 1 (0, 1))).1 ≠ (lightIdleStep 1 0 1 (0, 1)).1 := by
  have hs : 0 < Real.sin 1 := by
    apply Real.sin_pos_of_pos_of_lt_pi one_pos
    linarith [Real.pi_gt_three]
  simp only [lightIdleStep, Nat.cast_zero]
  norm_num
  nlinarith

/-- C5 (amended): on an idle tick of the settled formed light group, the
rendered scale is recomputed from the light's fixed formed-layout scale and
the elapsed time and index alone — it does not depend on the previously
rendered state, so repeated idle ticks never accumulate scale drift — but
the rendered y position equals the PREVIOUS rendered y plus
`sin(elapsedTime + i) * 0.002`, an increment that accumulates across idle
ticks. -/
theorem lightIdleStep_spec (t : ℝ) (i : ℕ) (treeScale : ℝ) (st other : ℝ × ℝ) :
    (lightIdleStep t i treeScale st).2 = (lightIdleStep t i treeScale other).2 ∧
    (lightIdleStep t i treeScale st).2 = treeScale * lightIdleBlinkFactor t i ∧
    (lightIdleStep t i treeScale st).1 = st.1 + Real.sin (t + (i : ℝ)) * 0.002 := by
  refine ⟨rfl, ?_, rfl⟩
  unfold lightIdleStep lightIdleBlinkFactor
  ring

/-- C8 counterexample: at elapsed time `0` and index `0` the source's morph
blink multiplier is `0.8 + 0.4 * (0.5 + 0.5 * sin 0) = 1`, while the claimed
multiplier `0.8 + 0.5 * (0.5 + 0.5 * sin 0) = 1.05` — at the group's
transition constants (frequency 5, phase offset 1) or any other constants,
since `sin 0 = 0`.  Consequently the rendered scale (interpolated scale `1`)
is `1`, not `1.05`. -/
theorem lightTransitionBlink_counterexample :
    lightTransitionBlinkFactor 0 0 = 1 ∧
    specBlinkFactor 5 1 0 0 = 1.05 ∧
    lightTransitionBlinkFactor 0 0 ≠ specBlinkFactor 5 1 0 0 ∧
    lightTransitionScale 0 0 1 1 1 = 1 := by
    refine ⟨?_, ?_, ?_, ?_⟩ <;>
      simp only [lightTransitionBlinkFactor, specBlinkFactor, lightTransitionScale,
        Nat.cast_zero] <;>
      norm_num

/-- C8 (amended): during an active morph the light's rendered scale is the
interpolated scale times `0.8 + 0.4 * (0.5 + 0.5 * sin(elapsedTime * 5 + i))`
(equivalently `1 + 0.2 * sin(elapsedTime * 5 + i)`), a factor bounded in
`[0.8, 1.2]`; the specification's `0.8 + 0.5 * (…)` multiplier is the one of
the settled idle branch, whose factor equals
`specBlinkFactor` at frequency `3` and phase offset `0.5`. -/
theorem lightBlink_spec (t : ℝ) (i : ℕ) :
    lightTransitionBlinkFactor t i = 0.8 + 0.4 * (0.5 + 0.5 * Real.sin (t * 5 + (i : ℝ))) ∧
    lightTransitionBlinkFactor t i = 1 + 0.2 * Real.sin (t * 5 + (i : ℝ)) ∧
    (∀ sSca tSca p : ℝ, lightTransitionScale t i sSca tSca p =
      ((1 - p) * sSca + p * tSca) * (1 + 0.2 * Real.sin (t * 5 + (i : ℝ)))) ∧
    0.8 ≤ lightTransitionBlinkFactor t i ∧
    lightTransitionBlinkFactor t i ≤ 1.2 ∧
    lightIdleBlinkFactor t i = specBlinkFactor 3 (1/2) t i := by
  have hs1 := Real.sin_le_one (t * 5 + (i : ℝ))
  have hs2 := Real.neg_one_le_sin (t * 5 + (i : ℝ))
  refine ⟨by unfold lightTransitionBlinkFactor; ring,
    by unfold lightTransitionBlinkFactor; ring, ?_, ?_, ?_, ?_⟩
  · intro sSca tSca p
    unfold lightTransitionScale lightTransitionBlinkFactor
    ring
  · unfold lightTransitionBlinkFactor
    nlinarith
  · unfold lightTransitionBlinkFactor
    nlinarith
  · unfold lightIdleBlinkFactor specBlinkFactor
    norm_num
    ring

/-- C9: for every theme, the wish call is a total function that returns the
fixed localized fallback string when the credential is missing, and also on
every service or network failure — no exception escapes (the embedding
returns a plain `String`, never an `Except`). -/
theorem generateHolidayWish_fallback (theme apiKey e : String)
    (svc : Except String (Option String)) :
    (apiKey = "" → generateHolidayWish theme apiKey svc = fallbackWish) ∧
    (svc = Except.error e → generateHolidayWish theme apiKey svc = fallbackWish) := by
  constructor
  · intro hk
    simp [generateHolidayWish, hk]
  · intro hsvc
    subst hsvc
    by_cases hk : apiKey = "" <;> simp [generateHolidayWish, hk]

/-- C9 witness: missing credential, and a service failure with a non-empty
credential, both yield the fallback. -/
theorem generateHolidayWish_fallback_witness :
    generateHolidayWish "Opulence and Gratitude" "" (Except.ok (some "hi")) = fallbackWish ∧
    generateHolidayWish "Opulence and Gratitude" "k" (Except.error "network down") = fallbackWish :=
  ⟨(generateHolidayWish_fallback "Opulence and Gratitude" "" "network down"
      (Except.ok (some "hi"))).1 rfl,
   (generateHolidayWish_fallback "Opulence and Gratitude" "k" "network down"
      (Except.error "network down")).2 rfl⟩

/-- C10: the wish call never returns the empty string: a successful service
response with missing or empty text is replaced by the (non-empty) fixed
fallback string. -/
theorem generateHolidayWish_nonempty (theme apiKey : String)
    (svc : Except String (Option String)) :
    generateHolidayWish theme apiKey svc ≠ "" ∧
    (svc = Except.ok none → generateHolidayWish theme apiKey svc = fallbackWish) ∧
    (svc = Except.ok (some "") → generateHolidayWish theme apiKey svc = fallbackWish) := by
  have hfb : fallbackWish ≠ "" := by decide
  refine ⟨?_, ?_, ?_⟩
  · unfold generateHolidayWish
    by_cases hk : apiKey = ""
    · simp [hk, hfb]
    · rw [if_neg hk]
      match svc with
      | Except.error _ => exact hfb
      | Except.ok none => exact hfb
      | Except.ok (some text) =>
        by_cases ht : text = ""
        · simp [ht, hfb]
        · simp [ht]
  · intro hsvc
    subst hsvc
    by_cases hk : apiKey = "" <;> simp [generateHolidayWish, hk]
  · intro hsvc
    subst hsvc
    by_cases hk : apiKey = "" <;> simp [generateHolidayWish, hk]

/-- C10 witness: an `ok` response with no text, with empty text, and with
real text. -/
theorem generateHolidayWish_nonempty_witness :
    generateHolidayWish "Opulence and Gratitude" "k" (Except.ok none) ≠ "" ∧
    generateHolidayWish "Opulence and Gratitude" "k" (Except.ok none) = fallbackWish ∧
    generateHolidayWish "Opulence and Gratitude" "k" (Except.ok (some "")) = fallbackWish :=
  ⟨(generateHolidayWish_nonempty "Opulence and Gratitude" "k" (Except.ok none)).1,
   (generateHolidayWish_nonempty "Opulence and Gratitude" "k" (Except.ok none)).2.1 rfl,
   (generateHolidayWish_nonempty "Opulence and Gratitude" "k" (Except.ok (some ""))).2.2 rfl⟩
